import Mathlib

/-!
Shallow embedding of the verdict pyramid quality metrics
(`V_PyramidMetric.cpp`, with the vector arithmetic of `VerdictVector.hpp`),
and proofs about them.  Doubles are modelled as real numbers (exact real
arithmetic); `sqrt` is `Real.sqrt`.
-/

noncomputable section

namespace Verdict

/-- The 3-component vector of `VerdictVector.hpp` (components are doubles,
modelled as reals). -/
structure VerdictVector where
  xVal : ℝ
  yVal : ℝ
  zVal : ℝ

/-- Vector addition (`operator+`). -/
def vadd (a b : VerdictVector) : VerdictVector :=
  ⟨a.xVal + b.xVal, a.yVal + b.yVal, a.zVal + b.zVal⟩

/-- Vector subtraction (`operator-`). -/
def vsub (a b : VerdictVector) : VerdictVector :=
  ⟨a.xVal - b.xVal, a.yVal - b.yVal, a.zVal - b.zVal⟩

/-- Cross product (`operator*` on two `VerdictVector`s, via `operator*=`). -/
def vcross (a b : VerdictVector) : VerdictVector :=
  ⟨a.yVal * b.zVal - a.zVal * b.yVal,
   a.zVal * b.xVal - a.xVal * b.zVal,
   a.xVal * b.yVal - a.yVal * b.xVal⟩

/-- Dot product (`operator%` / `VerdictVector::Dot`). -/
def vdot (a b : VerdictVector) : ℝ :=
  a.xVal * b.xVal + a.yVal * b.yVal + a.zVal * b.zVal

/-- Scalar division (`operator/(VerdictVector, double)`). -/
def vdivScalar (a : VerdictVector) (s : ℝ) : VerdictVector :=
  ⟨a.xVal / s, a.yVal / s, a.zVal / s⟩

/-- `VerdictVector::length_squared()`. -/
def VerdictVector.length_squared (v : VerdictVector) : ℝ :=
  v.xVal * v.xVal + v.yVal * v.yVal + v.zVal * v.zVal

/-- `VerdictVector::length()`: `sqrt(x*x + y*y + z*z)`. -/
def VerdictVector.length (v : VerdictVector) : ℝ :=
  Real.sqrt (v.xVal * v.xVal + v.yVal * v.yVal + v.zVal * v.zVal)

/-- The input of every pyramid metric: 5 vertices (`double coordinates[][3]`,
indices 0-3 the quadrilateral base, 4 the apex). -/
abbrev PyramidCoords : Type := Fin 5 → VerdictVector

/-- Four ordered points, as used for the tetrahedron decompositions. -/
abbrev TetCoords : Type := VerdictVector × VerdictVector × VerdictVector × VerdictVector

/-- Four ordered points of the base quadrilateral face. -/
abbrev QuadCoords : Type := VerdictVector × VerdictVector × VerdictVector × VerdictVector

/-- Three ordered points of a triangular side face. -/
abbrev TriCoords : Type := VerdictVector × VerdictVector × VerdictVector

/-- Modelled from the spec: `VERDICT_DBL_MIN` (defined in
`verdict_defines.hpp`, which is not among the sources here).  Per the spec it
is "the smallest representable positive value for the numeric type in use",
i.e. the smallest positive double, `2^-1074`. -/
def VERDICT_DBL_MIN : ℝ := 1 / 2 ^ 1074

/-- Modelled from the spec: `VERDICT_DBL_MAX` (defined in
`verdict_defines.hpp`, which is not among the sources here), the sentinel the
scaled-Jacobian minimum fold starts from; modelled as the largest finite
double, `2^1024 - 2^971`. -/
def VERDICT_DBL_MAX : ℝ := 2 ^ 1024 - 2 ^ 971

/-- The `VERDICT_MIN(a,b)` macro: `((a) < (b) ? (a) : (b))`. -/
def VERDICT_MIN (a b : ℝ) : ℝ := if a < b then a else b

/-- The `VERDICT_MAX(a,b)` macro: `((a) > (b) ? (a) : (b))`. -/
def VERDICT_MAX (a b : ℝ) : ℝ := if a > b then a else b

/-- `v_pyramid_volume`: 0 unless `num_nodes == 5`, otherwise the sum of the
signed volumes of the two decomposition tets, each one-sixth of a scalar
triple product, exactly as in the source. -/
def v_pyramid_volume (num_nodes : ℤ) (c : PyramidCoords) : ℝ :=
  if num_nodes = 5 then
    let side1 := vsub (c 1) (c 0)
    let side2 := vsub (c 3) (c 0)
    let side3 := vsub (c 4) (c 0)
    let volume1 := vdot side3 (vcross side1 side2) / 6
    let side1b := vsub (c 3) (c 2)
    let side2b := vsub (c 1) (c 2)
    let side3b := vsub (c 4) (c 2)
    volume1 + vdot side3b (vcross side1b side2b) / 6
  else 0

/-- `v_make_pyramid_tets`: the four corner tetrahedra
`(v0,v1,v2,v4), (v0,v2,v3,v4), (v0,v1,v3,v4), (v1,v2,v3,v4)`. -/
def v_make_pyramid_tets (c : PyramidCoords) : TetCoords × TetCoords × TetCoords × TetCoords :=
  ((c 0, c 1, c 2, c 4),
   (c 0, c 2, c 3, c 4),
   (c 0, c 1, c 3, c 4),
   (c 1, c 2, c 3, c 4))

/-- `v_make_pyramid_faces`: the base quad `(v0,v1,v2,v3)` and the four side
triangles `(v0,v1,v4), (v1,v2,v4), (v2,v3,v4), (v3,v0,v4)`. -/
def v_make_pyramid_faces (c : PyramidCoords) :
    QuadCoords × TriCoords × TriCoords × TriCoords × TriCoords :=
  ((c 0, c 1, c 2, c 3),
   (c 0, c 1, c 4),
   (c 1, c 2, c 4),
   (c 2, c 3, c 4),
   (c 3, c 0, c 4))

/-- `v_make_pyramid_edges`: the eight directed edge vectors, four base edges
`0→1, 1→2, 2→3, 3→0` then four lateral edges `0→4, 1→4, 2→4, 3→4`. -/
def v_make_pyramid_edges (c : PyramidCoords) : Fin 8 → VerdictVector :=
  ![vsub (c 1) (c 0),
    vsub (c 2) (c 1),
    vsub (c 3) (c 2),
    vsub (c 0) (c 3),
    vsub (c 4) (c 0),
    vsub (c 4) (c 1),
    vsub (c 4) (c 2),
    vsub (c 4) (c 3)]

/-- The source's `length[i] = edges[i].length()` array in
`v_pyramid_scaled_jacobian`. -/
def pyramid_edge_length (c : PyramidCoords) (i : Fin 8) : ℝ :=
  (v_make_pyramid_edges c i).length

/-- Modelled from the spec: the external tetrahedron-Jacobian primitive
`v_tet_jacobian` (out of scope per §1, its source is not among the files
here).  Per §6 and the glossary it is the determinant of the local
coordinate-mapping derivative of the tet `(a,b,c,d)`, i.e. the scalar triple
product of the three edge vectors from the first vertex; §8's calibration
(ideal pyramid has scaled Jacobian exactly 1) fixes this normalization. -/
def v_tet_jacobian_model (t : TetCoords) : ℝ :=
  vdot (vsub t.2.1 t.1) (vcross (vsub t.2.2.1 t.1) (vsub t.2.2.2 t.1))

/-- `v_pyramid_jacobian`: the minimum of the raw tet Jacobians of the four
corner tets, combined with the source's ternaries. -/
def v_pyramid_jacobian (tetJac : TetCoords → ℝ) (num_nodes : ℤ) (c : PyramidCoords) : ℝ :=
  let tets := v_make_pyramid_tets c
  let j1 := tetJac tets.1
  let j2 := tetJac tets.2.1
  let j3 := tetJac tets.2.2.1
  let j4 := tetJac tets.2.2.2
  let p1 := if j1 < j2 then j1 else j2
  let p2 := if j3 < j4 then j3 else j4
  if p1 < p2 then p1 else p2

/-- The eight-way degenerate-edge test of `v_pyramid_scaled_jacobian`
(lines 165-172 of the source): some `length[i] < VERDICT_DBL_MIN`. -/
def scaled_jacobian_guard (c : PyramidCoords) : Prop :=
  pyramid_edge_length c 0 < VERDICT_DBL_MIN ∨
  pyramid_edge_length c 1 < VERDICT_DBL_MIN ∨
  pyramid_edge_length c 2 < VERDICT_DBL_MIN ∨
  pyramid_edge_length c 3 < VERDICT_DBL_MIN ∨
  pyramid_edge_length c 4 < VERDICT_DBL_MIN ∨
  pyramid_edge_length c 5 < VERDICT_DBL_MIN ∨
  pyramid_edge_length c 6 < VERDICT_DBL_MIN ∨
  pyramid_edge_length c 7 < VERDICT_DBL_MIN

instance scaled_jacobian_guard_dec (c : PyramidCoords) : Decidable (scaled_jacobian_guard c) := by
  unfold scaled_jacobian_guard
  infer_instance

/-- `v_pyramid_scaled_jacobian`: the four corner-tet Jacobians, the
degenerate-edge early return, then the fold of the four edge-normalized
ratios through `VERDICT_MIN` starting from `VERDICT_DBL_MAX`, as in the
source. -/
def v_pyramid_scaled_jacobian (tetJac : TetCoords → ℝ) (num_nodes : ℤ) (c : PyramidCoords) : ℝ :=
  let tets := v_make_pyramid_tets c
  let j1 := tetJac tets.1
  let j2 := tetJac tets.2.1
  let j3 := tetJac tets.2.2.1
  let j4 := tetJac tets.2.2.2
  if scaled_jacobian_guard c then 0
  else
    let factor := Real.sqrt 2 / 2
    let sj1 := j1 / (pyramid_edge_length c 0 * pyramid_edge_length c 1 *
                     pyramid_edge_length c 5 * factor)
    let m1 := VERDICT_MIN sj1 VERDICT_DBL_MAX
    let sj2 := j2 / (pyramid_edge_length c 2 * pyramid_edge_length c 3 *
                     pyramid_edge_length c 7 * factor)
    let m2 := VERDICT_MIN sj2 m1
    let sj3 := j3 / (pyramid_edge_length c 0 * pyramid_edge_length c 3 *
                     pyramid_edge_length c 4 * factor)
    let m3 := VERDICT_MIN sj3 m2
    let sj4 := j4 / (pyramid_edge_length c 1 * pyramid_edge_length c 2 *
                     pyramid_edge_length c 6 * factor)
    VERDICT_MIN sj4 m3

/-- `v_largest_pyramid_edge`.  Note the first accumulator step combines the
first two squared lengths with `VERDICT_MIN`, exactly as in line 451 of the
source (`double max = VERDICT_MIN(l0, l1);`), while all later steps use
`VERDICT_MAX`. -/
def v_largest_pyramid_edge (c : PyramidCoords) : ℝ :=
  let edges := v_make_pyramid_edges c
  let l0 := (edges 0).length_squared
  let l1 := (edges 1).length_squared
  let l2 := (edges 2).length_squared
  let l3 := (edges 3).length_squared
  let l4 := (edges 4).length_squared
  let l5 := (edges 5).length_squared
  let l6 := (edges 6).length_squared
  let l7 := (edges 7).length_squared
  let m1 := VERDICT_MIN l0 l1
  let m2 := VERDICT_MAX m1 l2
  let m3 := VERDICT_MAX m2 l3
  let m4 := VERDICT_MAX m3 l4
  let m5 := VERDICT_MAX m4 l5
  let m6 := VERDICT_MAX m5 l6
  let m7 := VERDICT_MAX m6 l7
  Real.sqrt m7

/-- `v_distance_point_to_pyramid_base`: returns the pair
`(distance, cos_angle)` (the C++ function returns `distance` and writes
`cos_angle` through a reference). -/
def v_distance_point_to_pyramid_base (num_nodes : ℤ) (c : PyramidCoords) : ℝ × ℝ :=
  let a := c 0
  let b := c 1
  let cc := c 2
  let d := c 3
  let peak := c 4
  let centroid := vdivScalar (vadd (vadd (vadd a b) cc) d) 4
  let t1 := vsub b a
  let t2 := vsub d a
  let normal := vcross t1 t2
  let normal_length := normal.length
  let pq := vsub peak centroid
  let distance := vdot pq normal / normal_length
  (distance, distance / pq.length)

/-- `v_pyramid_shape`, with the external quadrilateral shape primitive
`v_quad_shape` (out of scope per §1, not among the files here) passed in as
`quadShape`. -/
def v_pyramid_shape (quadShape : QuadCoords → ℝ) (num_nodes : ℤ) (c : PyramidCoords) : ℝ :=
  let SQRT2_HALVES := Real.sqrt 2 / 2
  let faces := v_make_pyramid_faces c
  let s1 := quadShape faces.1
  if s1 = 0 then 0
  else
    let dc := v_distance_point_to_pyramid_base num_nodes c
    let dist_to_base := dc.1
    let cos_angle := dc.2
    if dist_to_base ≤ 0 ∨ cos_angle ≤ 0 then 0
    else
      let longest_edge := v_largest_pyramid_edge c * SQRT2_HALVES
      let ratio := if dist_to_base < longest_edge then dist_to_base / longest_edge
                   else longest_edge / dist_to_base
      s1 * cos_angle * ratio

/-- The result record `PyramidMetricVals` (declared in `verdict.h`, one
double field per metric kind). -/
structure PyramidMetricVals where
  volume : ℝ
  jacobian : ℝ
  scaled_jacobian : ℝ
  shape : ℝ

/-- The record after `memset(metric_vals, 0, sizeof(PyramidMetricVals))`. -/
def zeroPyramidMetricVals : PyramidMetricVals := ⟨0, 0, 0, 0⟩

/-- Modelled from the spec: the request flag `V_PYRAMID_VOLUME` from
`verdict.h` (not among the sources here); the four recognized flags are
distinct single-bit masks. -/
def V_PYRAMID_VOLUME : ℕ := 1

/-- Modelled from the spec: the request flag `V_PYRAMID_JACOBIAN`. -/
def V_PYRAMID_JACOBIAN : ℕ := 2

/-- Modelled from the spec: the request flag `V_PYRAMID_SCALED_JACOBIAN`. -/
def V_PYRAMID_SCALED_JACOBIAN : ℕ := 4

/-- Modelled from the spec: the request flag `V_PYRAMID_SHAPE`. -/
def V_PYRAMID_SHAPE : ℕ := 8

/-- `v_pyramid_quality`: zero-initialize the record, then the
`if / else if / else if / else if` chain on the request bitmask, exactly as
in the source. -/
def v_pyramid_quality (tetJac : TetCoords → ℝ) (quadShape : QuadCoords → ℝ)
    (num_nodes : ℤ) (c : PyramidCoords) (metrics_request_flag : ℕ) : PyramidMetricVals :=
  if metrics_request_flag &&& V_PYRAMID_VOLUME ≠ 0 then
    { zeroPyramidMetricVals with volume := v_pyramid_volume num_nodes c }
  else if metrics_request_flag &&& V_PYRAMID_JACOBIAN ≠ 0 then
    { zeroPyramidMetricVals with jacobian := v_pyramid_jacobian tetJac num_nodes c }
  else if metrics_request_flag &&& V_PYRAMID_SCALED_JACOBIAN ≠ 0 then
    { zeroPyramidMetricVals with scaled_jacobian := v_pyramid_scaled_jacobian tetJac num_nodes c }
  else if metrics_request_flag &&& V_PYRAMID_SHAPE ≠ 0 then
    { zeroPyramidMetricVals with shape := v_pyramid_shape quadShape num_nodes c }
  else zeroPyramidMetricVals

/-- The four metric kinds, in the spec's fixed priority order. -/
inductive PyramidMetricKind
  | volume
  | jacobian
  | scaled_jacobian
  | shape

/-- Spec-side description (§4.6): the first recognized flag present in the
request bitmask, tested in the fixed priority order volume, Jacobian,
scaled-Jacobian, shape, if any. -/
def firstRequestedMetric (flag : ℕ) : Option PyramidMetricKind :=
  if flag &&& V_PYRAMID_VOLUME ≠ 0 then some PyramidMetricKind.volume
  else if flag &&& V_PYRAMID_JACOBIAN ≠ 0 then some PyramidMetricKind.jacobian
  else if flag &&& V_PYRAMID_SCALED_JACOBIAN ≠ 0 then some PyramidMetricKind.scaled_jacobian
  else if flag &&& V_PYRAMID_SHAPE ≠ 0 then some PyramidMetricKind.shape
  else none

/-- Spec-side description: the value of one metric kind. -/
def pyramid_metric_value (tetJac : TetCoords → ℝ) (quadShape : QuadCoords → ℝ)
    (num_nodes : ℤ) (c : PyramidCoords) : PyramidMetricKind → ℝ
  | PyramidMetricKind.volume => v_pyramid_volume num_nodes c
  | PyramidMetricKind.jacobian => v_pyramid_jacobian tetJac num_nodes c
  | PyramidMetricKind.scaled_jacobian => v_pyramid_scaled_jacobian tetJac num_nodes c
  | PyramidMetricKind.shape => v_pyramid_shape quadShape num_nodes c

/-- Spec-side description: store one metric value into the zero-initialized
record, leaving every other field at zero. -/
def store_pyramid_metric : PyramidMetricKind → ℝ → PyramidMetricVals
  | PyramidMetricKind.volume, v => { zeroPyramidMetricVals with volume := v }
  | PyramidMetricKind.jacobian, v => { zeroPyramidMetricVals with jacobian := v }
  | PyramidMetricKind.scaled_jacobian, v => { zeroPyramidMetricVals with scaled_jacobian := v }
  | PyramidMetricKind.shape, v => { zeroPyramidMetricVals with shape := v }

/-- Spec-side description of the whole dispatch contract (§4.6), written from
the spec's words: zero record unless some recognized flag matches, else only
the first matching flag's metric is computed and stored. -/
def v_pyramid_quality_spec (tetJac : TetCoords → ℝ) (quadShape : QuadCoords → ℝ)
    (num_nodes : ℤ) (c : PyramidCoords) (flag : ℕ) : PyramidMetricVals :=
  match firstRequestedMetric flag with
  | none => zeroPyramidMetricVals
  | some k => store_pyramid_metric k (pyramid_metric_value tetJac quadShape num_nodes c k)

/-- Spec-side description (§4.2): one-sixth the scalar triple product of the
three edge vectors emanating from the first (shared) vertex of the
tetrahedron `(a,b,c,d)`. -/
def tet_corner_volume (a b c d : VerdictVector) : ℝ :=
  vdot (vsub d a) (vcross (vsub b a) (vsub c a)) / 6

/-- The spec's §8 end-to-end input: unit square base
`v0=(0,0,0), v1=(1,0,0), v2=(1,1,0), v3=(0,1,0)` with the apex
`v4=(0.5, 0.5, 1/sqrt 2)` above the centroid.  All eight of its edges have
length exactly 1. -/
def unitSquarePyramid : PyramidCoords :=
  ![⟨0, 0, 0⟩, ⟨1, 0, 0⟩, ⟨1, 1, 0⟩, ⟨0, 1, 0⟩, ⟨1/2, 1/2, 1 / Real.sqrt 2⟩]

lemma sqrt_two_mul_self : Real.sqrt 2 * Real.sqrt 2 = 2 :=
  Real.mul_self_sqrt (by norm_num)

lemma sqrt_two_pos : 0 < Real.sqrt 2 := Real.sqrt_pos.mpr (by norm_num)

/-- Evaluating the volume of the §8 pyramid: each decomposition tet
contributes `(1/sqrt 2)/6`, for a total of `sqrt 2 / 6`. -/
lemma unitSquarePyramid_volume : v_pyramid_volume 5 unitSquarePyramid = Real.sqrt 2 / 6 := by
  have h0 : Real.sqrt 2 ≠ 0 := ne_of_gt sqrt_two_pos
  show (if (5 : ℤ) = 5 then _ else _) = _
  rw [if_pos rfl]
  show vdot (vsub (unitSquarePyramid 4) (unitSquarePyramid 0))
        (vcross (vsub (unitSquarePyramid 1) (unitSquarePyramid 0))
          (vsub (unitSquarePyramid 3) (unitSquarePyramid 0))) / 6 +
      vdot (vsub (unitSquarePyramid 4) (unitSquarePyramid 2))
        (vcross (vsub (unitSquarePyramid 3) (unitSquarePyramid 2))
          (vsub (unitSquarePyramid 1) (unitSquarePyramid 2))) / 6 = Real.sqrt 2 / 6
  show vdot (vsub ⟨1/2, 1/2, 1 / Real.sqrt 2⟩ ⟨0, 0, 0⟩)
        (vcross (vsub ⟨1, 0, 0⟩ ⟨0, 0, 0⟩) (vsub ⟨0, 1, 0⟩ ⟨0, 0, 0⟩)) / 6 +
      vdot (vsub ⟨1/2, 1/2, 1 / Real.sqrt 2⟩ ⟨1, 1, 0⟩)
        (vcross (vsub ⟨0, 1, 0⟩ ⟨1, 1, 0⟩) (vsub ⟨1, 0, 0⟩ ⟨1, 1, 0⟩)) / 6 = Real.sqrt 2 / 6
  unfold vdot vcross vsub
  field_simp
  ring_nf
  rw [sq, sqrt_two_mul_self]
  norm_num

/-- C4 (counterexample): on the input
`v0=(0,0,0), v1=(1,0,0), v2=(1,1,0), v3=(0,1,0), v4=(0.5,0.5,1/sqrt 2)` with
`num_nodes = 5`, `v_pyramid_volume` does not return `1/3`. -/
theorem pyramid_volume_unit_square_ne_one_third :
    v_pyramid_volume 5 unitSquarePyramid ≠ 1 / 3 := by
  rw [unitSquarePyramid_volume]
  intro h
  have h2 : Real.sqrt 2 = 2 := by linarith
  have := sqrt_two_mul_self
  rw [h2] at this
  norm_num at this

/-- C4 (amended): on the input
`v0=(0,0,0), v1=(1,0,0), v2=(1,1,0), v3=(0,1,0), v4=(0.5,0.5,1/sqrt 2)` with
`num_nodes = 5`, `v_pyramid_volume` returns `sqrt 2 / 6` (which is
`(1/3) * base_area * height` for this pyramid of height `1/sqrt 2`), not
`1/3`. -/
theorem pyramid_volume_unit_square_eq_sqrt_two_div_six :
    v_pyramid_volume 5 unitSquarePyramid = Real.sqrt 2 / 6 :=
  unitSquarePyramid_volume

/-- C6: `v_pyramid_volume` returns exactly 0 whenever `num_nodes` is not 5,
and otherwise the sum of the signed volumes of tet A `(v0,v1,v3,v4)` and
tet B `(v2,v3,v1,v4)`, each one-sixth of the scalar triple product of the
three edge vectors emanating from that tetrahedron's shared (first) vertex. -/
theorem pyramid_volume_tet_decomposition (n : ℤ) (c : PyramidCoords) :
    v_pyramid_volume n c =
      if n = 5 then
        tet_corner_volume (c 0) (c 1) (c 3) (c 4) + tet_corner_volume (c 2) (c 3) (c 1) (c 4)
      else 0 := by
  unfold v_pyramid_volume tet_corner_volume
  rfl

/-- The C ternary `(a < b ? a : b)` is the binary minimum on reals. -/
lemma ite_lt_eq_min (a b : ℝ) : (if a < b then a else b) = min a b := by
  rcases le_or_lt b a with h | h
  · rw [if_neg (not_lt.mpr h), min_eq_right h]
  · rw [if_pos h, min_eq_left h.le]

/-- The C ternary `(a > b ? a : b)` is the binary maximum on reals. -/
lemma ite_gt_eq_max (a b : ℝ) : (if a > b then a else b) = max a b := by
  rcases le_or_lt a b with h | h
  · rw [if_neg (not_lt.mpr h), max_eq_right h]
  · rw [if_pos h, max_eq_left h.le]

lemma VERDICT_MIN_eq_min (a b : ℝ) : VERDICT_MIN a b = min a b := ite_lt_eq_min a b

lemma VERDICT_MAX_eq_max (a b : ℝ) : VERDICT_MAX a b = max a b := ite_gt_eq_max a b

/-- C7: for every input, `v_pyramid_jacobian` returns the minimum of the four
values of the external tetrahedron-Jacobian primitive on the decomposition
tets `tet1=(v0,v1,v2,v4)`, `tet2=(v0,v2,v3,v4)`, `tet3=(v0,v1,v3,v4)`,
`tet4=(v1,v2,v3,v4)`, in exactly those vertex orders; this holds for any
tetrahedron primitive `tetJac`. -/
theorem pyramid_jacobian_min_of_four (tetJac : TetCoords → ℝ) (n : ℤ) (c : PyramidCoords) :
    v_pyramid_jacobian tetJac n c =
      min (min (tetJac (c 0, c 1, c 2, c 4)) (tetJac (c 0, c 2, c 3, c 4)))
          (min (tetJac (c 0, c 1, c 3, c 4)) (tetJac (c 1, c 2, c 3, c 4))) := by
  unfold v_pyramid_jacobian v_make_pyramid_tets
  simp only [ite_lt_eq_min]

lemma length_squared_nonneg (v : VerdictVector) : 0 ≤ v.length_squared :=
  add_nonneg (add_nonneg (mul_self_nonneg _) (mul_self_nonneg _)) (mul_self_nonneg _)

lemma length_nonneg (v : VerdictVector) : 0 ≤ v.length := Real.sqrt_nonneg _

lemma length_eq_sqrt (v : VerdictVector) : v.length = Real.sqrt v.length_squared := rfl

/-- Cauchy-Schwarz for the 3-component dot product, squared form. -/
lemma vdot_sq_le (u v : VerdictVector) :
    vdot u v ^ 2 ≤ u.length_squared * v.length_squared := by
  unfold vdot VerdictVector.length_squared
  nlinarith [sq_nonneg (u.xVal * v.yVal - u.yVal * v.xVal),
             sq_nonneg (u.xVal * v.zVal - u.zVal * v.xVal),
             sq_nonneg (u.yVal * v.zVal - u.zVal * v.yVal)]

/-- Cauchy-Schwarz for the 3-component dot product. -/
lemma abs_vdot_le (u v : VerdictVector) : |vdot u v| ≤ u.length * v.length := by
  rw [← Real.sqrt_sq_eq_abs, length_eq_sqrt, length_eq_sqrt,
    ← Real.sqrt_mul (length_squared_nonneg u)]
  exact Real.sqrt_le_sqrt (vdot_sq_le u v)

/-- Lagrange's identity for the 3-component cross product. -/
lemma cross_length_squared_eq (u v : VerdictVector) :
    (vcross u v).length_squared = u.length_squared * v.length_squared - vdot u v ^ 2 := by
  unfold vcross vdot VerdictVector.length_squared
  ring

lemma cross_length_le (u v : VerdictVector) :
    (vcross u v).length ≤ u.length * v.length := by
  rw [length_eq_sqrt, length_eq_sqrt, length_eq_sqrt,
    ← Real.sqrt_mul (length_squared_nonneg u)]
  apply Real.sqrt_le_sqrt
  rw [cross_length_squared_eq]
  nlinarith [sq_nonneg (vdot u v)]

/-- Hadamard-style bound for the scalar triple product. -/
lemma abs_triple_le (u v w : VerdictVector) :
    |vdot u (vcross v w)| ≤ u.length * (v.length * w.length) :=
  le_trans (abs_vdot_le u (vcross v w))
    (mul_le_mul_of_nonneg_left (cross_length_le v w) (length_nonneg u))

/-- Column-operation identity: subtracting the first edge from the other two
does not change the triple product (determinant invariance). -/
lemma triple_product_shift (a b c d : VerdictVector) :
    vdot (vsub b a) (vcross (vsub c a) (vsub d a)) =
    vdot (vsub b a) (vcross (vsub c b) (vsub d b)) := by
  unfold vdot vcross vsub
  ring

lemma VERDICT_DBL_MIN_pos : 0 < VERDICT_DBL_MIN := by
  unfold VERDICT_DBL_MIN
  positivity

lemma sqrt_two_lt_two : Real.sqrt 2 < 2 :=
  (Real.sqrt_lt' (by norm_num)).mpr (by norm_num)

lemma sqrt_two_lt_VERDICT_DBL_MAX : Real.sqrt 2 < VERDICT_DBL_MAX := by
  refine sqrt_two_lt_two.trans_le ?_
  unfold VERDICT_DBL_MAX
  norm_num

lemma two_div_sqrt_two : 2 / Real.sqrt 2 = Real.sqrt 2 := by
  rw [div_eq_iff (ne_of_gt sqrt_two_pos), sqrt_two_mul_self]

lemma edge_len0 (c : PyramidCoords) : pyramid_edge_length c 0 = (vsub (c 1) (c 0)).length := rfl

lemma edge_len1 (c : PyramidCoords) : pyramid_edge_length c 1 = (vsub (c 2) (c 1)).length := rfl

lemma edge_len5 (c : PyramidCoords) : pyramid_edge_length c 5 = (vsub (c 4) (c 1)).length := rfl

/-- The first corner's edge-normalized Jacobian ratio never exceeds
`sqrt 2` when the three normalizing edges have positive length: the modelled
tet Jacobian is a triple product bounded by the product of the lengths of
the three edges at that corner. -/
lemma corner_one_ratio_le_sqrt_two (c : PyramidCoords)
    (h0 : 0 < pyramid_edge_length c 0) (h1 : 0 < pyramid_edge_length c 1)
    (h5 : 0 < pyramid_edge_length c 5) :
    v_tet_jacobian_model (c 0, c 1, c 2, c 4) /
      (pyramid_edge_length c 0 * pyramid_edge_length c 1 * pyramid_edge_length c 5 *
        (Real.sqrt 2 / 2)) ≤ Real.sqrt 2 := by
  rw [edge_len0, edge_len1, edge_len5] at *
  have hshift : v_tet_jacobian_model (c 0, c 1, c 2, c 4) =
      vdot (vsub (c 1) (c 0)) (vcross (vsub (c 2) (c 1)) (vsub (c 4) (c 1))) := by
    show vdot (vsub (c 1) (c 0)) (vcross (vsub (c 2) (c 0)) (vsub (c 4) (c 0))) = _
    exact triple_product_shift (c 0) (c 1) (c 2) (c 4)
  set u := vsub (c 1) (c 0) with hu
  set v := vsub (c 2) (c 1) with hv
  set w := vsub (c 4) (c 1) with hw
  have hf : 0 < Real.sqrt 2 / 2 := by positivity
  have hP : 0 < u.length * v.length * w.length := mul_pos (mul_pos h0 h1) h5
  have hD : 0 < u.length * v.length * w.length * (Real.sqrt 2 / 2) := mul_pos hP hf
  have hbound : vdot u (vcross v w) ≤ u.length * v.length * w.length := by
    rw [mul_assoc]
    exact le_trans (le_abs_self _) (abs_triple_le u v w)
  calc v_tet_jacobian_model (c 0, c 1, c 2, c 4) /
        (u.length * v.length * w.length * (Real.sqrt 2 / 2))
      ≤ (u.length * v.length * w.length) /
        (u.length * v.length * w.length * (Real.sqrt 2 / 2)) := by
        rw [hshift]
        exact (div_le_div_right hD).mpr hbound
    _ = 1 / (Real.sqrt 2 / 2) := by
        rw [div_mul_eq_div_div, div_self (ne_of_gt hP)]
    _ = Real.sqrt 2 := by
        rw [one_div_div, two_div_sqrt_two]

set_option maxHeartbeats 1600000 in
/-- C1: when all eight edge lengths are at least the machine-precision
floor, `v_pyramid_scaled_jacobian` (with the modelled tetrahedron-Jacobian
primitive) is the minimum over the four corner tets of the raw tet Jacobian
divided by the product of the three corner edge lengths ({0,1,5}, {2,3,7},
{0,3,4}, {1,2,6} respectively) scaled by the constant `sqrt 2 / 2`. -/
theorem pyramid_scaled_jacobian_formula (c : PyramidCoords)
    (h : ∀ i : Fin 8, VERDICT_DBL_MIN ≤ pyramid_edge_length c i) :
    v_pyramid_scaled_jacobian v_tet_jacobian_model 5 c =
      min (min (v_tet_jacobian_model (c 0, c 1, c 2, c 4) /
             (pyramid_edge_length c 0 * pyramid_edge_length c 1 *
              pyramid_edge_length c 5 * (Real.sqrt 2 / 2)))
           (v_tet_jacobian_model (c 0, c 2, c 3, c 4) /
             (pyramid_edge_length c 2 * pyramid_edge_length c 3 *
              pyramid_edge_length c 7 * (Real.sqrt 2 / 2))))
          (min (v_tet_jacobian_model (c 0, c 1, c 3, c 4) /
             (pyramid_edge_length c 0 * pyramid_edge_length c 3 *
              pyramid_edge_length c 4 * (Real.sqrt 2 / 2)))
           (v_tet_jacobian_model (c 1, c 2, c 3, c 4) /
             (pyramid_edge_length c 1 * pyramid_edge_length c 2 *
              pyramid_edge_length c 6 * (Real.sqrt 2 / 2)))) := by
  have hpos : ∀ i : Fin 8, 0 < pyramid_edge_length c i :=
    fun i => lt_of_lt_of_le VERDICT_DBL_MIN_pos (h i)
  have hguard : ¬ scaled_jacobian_guard c := by
    unfold scaled_jacobian_guard
    push_neg
    exact ⟨h 0, h 1, h 2, h 3, h 4, h 5, h 6, h 7⟩
  have hsj1 : v_tet_jacobian_model (c 0, c 1, c 2, c 4) /
      (pyramid_edge_length c 0 * pyramid_edge_length c 1 * pyramid_edge_length c 5 *
        (Real.sqrt 2 / 2)) ≤ VERDICT_DBL_MAX :=
    le_trans (corner_one_ratio_le_sqrt_two c (hpos 0) (hpos 1) (hpos 5))
      (le_of_lt sqrt_two_lt_VERDICT_DBL_MAX)
  unfold v_pyramid_scaled_jacobian v_make_pyramid_tets
  rw [if_neg hguard]
  simp only [VERDICT_MIN_eq_min]
  rw [min_eq_left hsj1]
  simp only [min_comm, min_assoc, min_left_comm]

/-- Every edge of the §8 pyramid has length exactly 1 (the four unit base
edges, and the four lateral edges of squared length `1/4 + 1/4 + 1/2`). -/
lemma unitSquarePyramid_edge_length :
    ∀ i : Fin 8, pyramid_edge_length unitSquarePyramid i = 1 := by
  have hsq : 1 / Real.sqrt 2 * (1 / Real.sqrt 2) = 1 / 2 := by
    rw [div_mul_div_comm, sqrt_two_mul_self]
    norm_num
  intro i
  fin_cases i
  · show Real.sqrt (((1:ℝ) - 0) * (1 - 0) + (0 - 0) * (0 - 0) + (0 - 0) * (0 - 0)) = 1
    rw [Real.sqrt_eq_one]
    norm_num
  · show Real.sqrt (((1:ℝ) - 1) * (1 - 1) + (1 - 0) * (1 - 0) + (0 - 0) * (0 - 0)) = 1
    rw [Real.sqrt_eq_one]
    norm_num
  · show Real.sqrt (((0:ℝ) - 1) * (0 - 1) + (1 - 1) * (1 - 1) + (0 - 0) * (0 - 0)) = 1
    rw [Real.sqrt_eq_one]
    norm_num
  · show Real.sqrt (((0:ℝ) - 0) * (0 - 0) + (0 - 1) * (0 - 1) + (0 - 0) * (0 - 0)) = 1
    rw [Real.sqrt_eq_one]
    norm_num
  · show Real.sqrt (((1:ℝ)/2 - 0) * (1/2 - 0) + (1/2 - 0) * (1/2 - 0) +
        (1 / Real.sqrt 2 - 0) * (1 / Real.sqrt 2 - 0)) = 1
    rw [Real.sqrt_eq_one]
    simp only [sub_zero]
    rw [hsq]
    norm_num
  · show Real.sqrt (((1:ℝ)/2 - 1) * (1/2 - 1) + (1/2 - 0) * (1/2 - 0) +
        (1 / Real.sqrt 2 - 0) * (1 / Real.sqrt 2 - 0)) = 1
    rw [Real.sqrt_eq_one]
    simp only [sub_zero]
    rw [hsq]
    norm_num
  · show Real.sqrt (((1:ℝ)/2 - 1) * (1/2 - 1) + (1/2 - 1) * (1/2 - 1) +
        (1 / Real.sqrt 2 - 0) * (1 / Real.sqrt 2 - 0)) = 1
    rw [Real.sqrt_eq_one]
    simp only [sub_zero]
    rw [hsq]
    norm_num
  · show Real.sqrt (((1:ℝ)/2 - 0) * (1/2 - 0) + (1/2 - 1) * (1/2 - 1) +
        (1 / Real.sqrt 2 - 0) * (1 / Real.sqrt 2 - 0)) = 1
    rw [Real.sqrt_eq_one]
    simp only [sub_zero]
    rw [hsq]
    norm_num

/-- The machine floor is below 1, hence below every §8 edge length. -/
lemma unitSquarePyramid_edges_ge :
    ∀ i : Fin 8, VERDICT_DBL_MIN ≤ pyramid_edge_length unitSquarePyramid i := by
  intro i
  rw [unitSquarePyramid_edge_length i]
  unfold VERDICT_DBL_MIN
  norm_num

/-- Witness for C1: the §8 pyramid satisfies the edge-floor hypothesis, and
the formula theorem applies to it. -/
theorem pyramid_scaled_jacobian_formula_witness :
    (∀ i : Fin 8, VERDICT_DBL_MIN ≤ pyramid_edge_length unitSquarePyramid i) ∧
    v_pyramid_scaled_jacobian v_tet_jacobian_model 5 unitSquarePyramid =
      min (min (v_tet_jacobian_model (unitSquarePyramid 0, unitSquarePyramid 1,
                  unitSquarePyramid 2, unitSquarePyramid 4) /
             (pyramid_edge_length unitSquarePyramid 0 * pyramid_edge_length unitSquarePyramid 1 *
              pyramid_edge_length unitSquarePyramid 5 * (Real.sqrt 2 / 2)))
           (v_tet_jacobian_model (unitSquarePyramid 0, unitSquarePyramid 2,
                  unitSquarePyramid 3, unitSquarePyramid 4) /
             (pyramid_edge_length unitSquarePyramid 2 * pyramid_edge_length unitSquarePyramid 3 *
              pyramid_edge_length unitSquarePyramid 7 * (Real.sqrt 2 / 2))))
          (min (v_tet_jacobian_model (unitSquarePyramid 0, unitSquarePyramid 1,
                  unitSquarePyramid 3, unitSquarePyramid 4) /
             (pyramid_edge_length unitSquarePyramid 0 * pyramid_edge_length unitSquarePyramid 3 *
              pyramid_edge_length unitSquarePyramid 4 * (Real.sqrt 2 / 2)))
           (v_tet_jacobian_model (unitSquarePyramid 1, unitSquarePyramid 2,
                  unitSquarePyramid 3, unitSquarePyramid 4) /
             (pyramid_edge_length unitSquarePyramid 1 * pyramid_edge_length unitSquarePyramid 2 *
              pyramid_edge_length unitSquarePyramid 6 * (Real.sqrt 2 / 2)))) :=
  ⟨unitSquarePyramid_edges_ge,
   pyramid_scaled_jacobian_formula unitSquarePyramid unitSquarePyramid_edges_ge⟩

/-- C8: whenever at least one of the eight edge lengths is below the
machine floor `VERDICT_DBL_MIN`, `v_pyramid_scaled_jacobian` returns 0
immediately, for any tetrahedron primitive and any vertex count. -/
theorem pyramid_scaled_jacobian_degenerate_edge (tetJac : TetCoords → ℝ) (n : ℤ)
    (c : PyramidCoords) (h : ∃ i : Fin 8, pyramid_edge_length c i < VERDICT_DBL_MIN) :
    v_pyramid_scaled_jacobian tetJac n c = 0 := by
  have hg : scaled_jacobian_guard c := by
    obtain ⟨i, hi⟩ := h
    unfold scaled_jacobian_guard
    fin_cases i <;> tauto
  unfold v_pyramid_scaled_jacobian
  rw [if_pos hg]

/-- A fully collapsed input: all five vertices at the origin. -/
def collapsedPyramid : PyramidCoords := fun _ => ⟨0, 0, 0⟩

/-- Witness for C8: every edge of `collapsedPyramid` has length 0, in
particular edge 0 is below the floor, and the metric returns 0 there. -/
theorem pyramid_scaled_jacobian_degenerate_edge_witness :
    (∃ i : Fin 8, pyramid_edge_length collapsedPyramid i < VERDICT_DBL_MIN) ∧
    v_pyramid_scaled_jacobian v_tet_jacobian_model 5 collapsedPyramid = 0 := by
  have h0 : pyramid_edge_length collapsedPyramid 0 < VERDICT_DBL_MIN := by
    show (vsub ⟨0, 0, 0⟩ ⟨0, 0, 0⟩).length < VERDICT_DBL_MIN
    unfold VerdictVector.length vsub VERDICT_DBL_MIN
    norm_num
  exact ⟨⟨0, h0⟩,
    pyramid_scaled_jacobian_degenerate_edge v_tet_jacobian_model 5 collapsedPyramid ⟨0, h0⟩⟩

/-- C10: when the degenerate-edge guard of `v_pyramid_scaled_jacobian` does
not fire (all eight edge lengths at least `VERDICT_DBL_MIN`), each of the
four normalization divisors — the product of the three corner edge lengths
and the factor `sqrt 2 / 2` — is strictly positive, so the divisions on the
non-guarded path never divide by zero. -/
theorem pyramid_scaled_jacobian_divisors_pos (c : PyramidCoords)
    (h : ¬ scaled_jacobian_guard c) :
    0 < pyramid_edge_length c 0 * pyramid_edge_length c 1 *
        pyramid_edge_length c 5 * (Real.sqrt 2 / 2) ∧
    0 < pyramid_edge_length c 2 * pyramid_edge_length c 3 *
        pyramid_edge_length c 7 * (Real.sqrt 2 / 2) ∧
    0 < pyramid_edge_length c 0 * pyramid_edge_length c 3 *
        pyramid_edge_length c 4 * (Real.sqrt 2 / 2) ∧
    0 < pyramid_edge_length c 1 * pyramid_edge_length c 2 *
        pyramid_edge_length c 6 * (Real.sqrt 2 / 2) := by
  unfold scaled_jacobian_guard at h
  push_neg at h
  obtain ⟨h0, h1, h2, h3, h4, h5, h6, h7⟩ := h
  have hp : ∀ {x : ℝ}, VERDICT_DBL_MIN ≤ x → 0 < x :=
    fun hx => lt_of_lt_of_le VERDICT_DBL_MIN_pos hx
  have hf : 0 < Real.sqrt 2 / 2 := by positivity
  exact ⟨mul_pos (mul_pos (mul_pos (hp h0) (hp h1)) (hp h5)) hf,
         mul_pos (mul_pos (mul_pos (hp h2) (hp h3)) (hp h7)) hf,
         mul_pos (mul_pos (mul_pos (hp h0) (hp h3)) (hp h4)) hf,
         mul_pos (mul_pos (mul_pos (hp h1) (hp h2)) (hp h6)) hf⟩

/-- Witness for C10: the §8 pyramid does not trigger the guard, and its four
divisors are positive. -/
theorem pyramid_scaled_jacobian_divisors_pos_witness :
    (¬ scaled_jacobian_guard unitSquarePyramid) ∧
    (0 < pyramid_edge_length unitSquarePyramid 0 * pyramid_edge_length unitSquarePyramid 1 *
         pyramid_edge_length unitSquarePyramid 5 * (Real.sqrt 2 / 2) ∧
     0 < pyramid_edge_length unitSquarePyramid 2 * pyramid_edge_length unitSquarePyramid 3 *
         pyramid_edge_length unitSquarePyramid 7 * (Real.sqrt 2 / 2) ∧
     0 < pyramid_edge_length unitSquarePyramid 0 * pyramid_edge_length unitSquarePyramid 3 *
         pyramid_edge_length unitSquarePyramid 4 * (Real.sqrt 2 / 2) ∧
     0 < pyramid_edge_length unitSquarePyramid 1 * pyramid_edge_length unitSquarePyramid 2 *
         pyramid_edge_length unitSquarePyramid 6 * (Real.sqrt 2 / 2)) := by
  have hg : ¬ scaled_jacobian_guard unitSquarePyramid := by
    unfold scaled_jacobian_guard
    push_neg
    exact ⟨unitSquarePyramid_edges_ge 0, unitSquarePyramid_edges_ge 1,
           unitSquarePyramid_edges_ge 2, unitSquarePyramid_edges_ge 3,
           unitSquarePyramid_edges_ge 4, unitSquarePyramid_edges_ge 5,
           unitSquarePyramid_edges_ge 6, unitSquarePyramid_edges_ge 7⟩
  exact ⟨hg, pyramid_scaled_jacobian_divisors_pos unitSquarePyramid hg⟩

/-- A pyramid whose longest edge is edge 0 (the base edge `0→1`, length 10)
while the adjacent base edge 1 is short:
`v0=(0,0,0), v1=(10,0,0), v2=(9,1,0), v3=(1,1,0), v4=(5,0,1)`.
Its squared edge lengths are `100, 2, 64, 2, 26, 26, 18, 18`. -/
def skewedPyramid : PyramidCoords :=
  ![⟨0, 0, 0⟩, ⟨10, 0, 0⟩, ⟨9, 1, 0⟩, ⟨1, 1, 0⟩, ⟨5, 0, 1⟩]

/-- C2 (code-bug evaluation): on `skewedPyramid`, `v_largest_pyramid_edge`
returns 8 (the second-largest edge length) although edge 0 has length 10:
the first accumulator step of the source folds the first two squared lengths
with `VERDICT_MIN` instead of `VERDICT_MAX`, discarding edge 0. -/
theorem largest_pyramid_edge_not_max :
    v_largest_pyramid_edge skewedPyramid = 8 ∧
    pyramid_edge_length skewedPyramid 0 = 10 := by
  have e0 : (v_make_pyramid_edges skewedPyramid 0).length_squared = 100 := by
    show ((10:ℝ) - 0) * (10 - 0) + (0 - 0) * (0 - 0) + (0 - 0) * (0 - 0) = 100
    norm_num
  have e1 : (v_make_pyramid_edges skewedPyramid 1).length_squared = 2 := by
    show ((9:ℝ) - 10) * (9 - 10) + (1 - 0) * (1 - 0) + (0 - 0) * (0 - 0) = 2
    norm_num
  have e2 : (v_make_pyramid_edges skewedPyramid 2).length_squared = 64 := by
    show ((1:ℝ) - 9) * (1 - 9) + (1 - 1) * (1 - 1) + (0 - 0) * (0 - 0) = 64
    norm_num
  have e3 : (v_make_pyramid_edges skewedPyramid 3).length_squared = 2 := by
    show ((0:ℝ) - 1) * (0 - 1) + (0 - 1) * (0 - 1) + (0 - 0) * (0 - 0) = 2
    norm_num
  have e4 : (v_make_pyramid_edges skewedPyramid 4).length_squared = 26 := by
    show ((5:ℝ) - 0) * (5 - 0) + (0 - 0) * (0 - 0) + (1 - 0) * (1 - 0) = 26
    norm_num
  have e5 : (v_make_pyramid_edges skewedPyramid 5).length_squared = 26 := by
    show ((5:ℝ) - 10) * (5 - 10) + (0 - 0) * (0 - 0) + (1 - 0) * (1 - 0) = 26
    norm_num
  have e6 : (v_make_pyramid_edges skewedPyramid 6).length_squared = 18 := by
    show ((5:ℝ) - 9) * (5 - 9) + (0 - 1) * (0 - 1) + (1 - 0) * (1 - 0) = 18
    norm_num
  have e7 : (v_make_pyramid_edges skewedPyramid 7).length_squared = 18 := by
    show ((5:ℝ) - 1) * (5 - 1) + (0 - 1) * (0 - 1) + (1 - 0) * (1 - 0) = 18
    norm_num
  constructor
  · simp only [v_largest_pyramid_edge]
    rw [e0, e1, e2, e3, e4, e5, e6, e7]
    simp only [VERDICT_MIN, VERDICT_MAX]
    norm_num
    rw [show (64:ℝ) = 8 ^ 2 by norm_num, Real.sqrt_sq (by norm_num)]
  · show Real.sqrt (((10:ℝ) - 0) * (10 - 0) + (0 - 0) * (0 - 0) + (0 - 0) * (0 - 0)) = 10
    norm_num
    rw [show (100:ℝ) = 10 ^ 2 by norm_num, Real.sqrt_sq (by norm_num)]

lemma largest_pyramid_edge_nonneg (c : PyramidCoords) :
    0 ≤ v_largest_pyramid_edge c := Real.sqrt_nonneg _

/-- C3: for every input, `v_pyramid_shape` returns a non-negative value,
assuming only the spec contract of the external quad-shape primitive (a
non-negative score); in the exact-real embedding the result is in
particular always defined and finite. -/
theorem pyramid_shape_nonneg (quadShape : QuadCoords → ℝ) (n : ℤ) (c : PyramidCoords)
    (h : ∀ q : QuadCoords, 0 ≤ quadShape q) :
    0 ≤ v_pyramid_shape quadShape n c := by
  simp only [v_pyramid_shape]
  by_cases h1 : quadShape (v_make_pyramid_faces c).1 = 0
  · rw [if_pos h1]
  · rw [if_neg h1]
    by_cases h2 : (v_distance_point_to_pyramid_base n c).1 ≤ 0 ∨
        (v_distance_point_to_pyramid_base n c).2 ≤ 0
    · rw [if_pos h2]
    · rw [if_neg h2]
      push_neg at h2
      obtain ⟨hd, hc⟩ := h2
      have hL : 0 ≤ v_largest_pyramid_edge c * (Real.sqrt 2 / 2) :=
        mul_nonneg (largest_pyramid_edge_nonneg c) (by positivity)
      refine mul_nonneg (mul_nonneg (h _) (le_of_lt hc)) ?_
      split
      · exact div_nonneg (le_of_lt hd) hL
      · exact div_nonneg hL (le_of_lt hd)

/-- Witness for C3: a concrete non-negative quad-shape collaborator and the
§8 pyramid. -/
theorem pyramid_shape_nonneg_witness :
    (∀ q : QuadCoords, 0 ≤ (fun _ : QuadCoords => (1:ℝ)) q) ∧
    0 ≤ v_pyramid_shape (fun _ : QuadCoords => (1:ℝ)) 5 unitSquarePyramid :=
  ⟨fun _ => by norm_num,
   pyramid_shape_nonneg (fun _ : QuadCoords => (1:ℝ)) 5 unitSquarePyramid (fun _ => by norm_num)⟩

/-- C9: `v_pyramid_shape` returns exactly 0 whenever the base-quad shape
score is 0, and exactly 0 whenever the apex's projected distance to the base
is non-positive or the cosine between the apex offset and the base normal is
non-positive. -/
theorem pyramid_shape_zero_when_degenerate (quadShape : QuadCoords → ℝ) (n : ℤ)
    (c : PyramidCoords)
    (h : quadShape (v_make_pyramid_faces c).1 = 0 ∨
         (v_distance_point_to_pyramid_base n c).1 ≤ 0 ∨
         (v_distance_point_to_pyramid_base n c).2 ≤ 0) :
    v_pyramid_shape quadShape n c = 0 := by
  simp only [v_pyramid_shape]
  by_cases h1 : quadShape (v_make_pyramid_faces c).1 = 0
  · rw [if_pos h1]
  · rw [if_neg h1, if_pos (h.resolve_left h1)]

/-- An inverted pyramid: unit square base with the apex strictly below the
base plane, `v4 = (1/2, 1/2, -1)`. -/
def invertedPyramid : PyramidCoords :=
  ![⟨0, 0, 0⟩, ⟨1, 0, 0⟩, ⟨1, 1, 0⟩, ⟨0, 1, 0⟩, ⟨1/2, 1/2, -1⟩]

/-- Witness for C9: the inverted pyramid's apex-to-base projected distance is
`-1 ≤ 0`, and the shape metric is 0 there (with a quad-shape collaborator
that reports a non-zero base score, so the zero comes from the apex test). -/
theorem pyramid_shape_zero_when_degenerate_witness :
    ((fun _ : QuadCoords => (1:ℝ)) (v_make_pyramid_faces invertedPyramid).1 = 0 ∨
     (v_distance_point_to_pyramid_base 5 invertedPyramid).1 ≤ 0 ∨
     (v_distance_point_to_pyramid_base 5 invertedPyramid).2 ≤ 0) ∧
    v_pyramid_shape (fun _ : QuadCoords => (1:ℝ)) 5 invertedPyramid = 0 := by
  have hd : (v_distance_point_to_pyramid_base 5 invertedPyramid).1 ≤ 0 := by
    show vdot (vsub ⟨1/2, 1/2, -1⟩
          (vdivScalar (vadd (vadd (vadd ⟨0, 0, 0⟩ ⟨1, 0, 0⟩) ⟨1, 1, 0⟩) ⟨0, 1, 0⟩) 4))
          (vcross (vsub ⟨1, 0, 0⟩ ⟨0, 0, 0⟩) (vsub ⟨0, 1, 0⟩ ⟨0, 0, 0⟩)) /
        (vcross (vsub ⟨1, 0, 0⟩ ⟨0, 0, 0⟩) (vsub ⟨0, 1, 0⟩ ⟨0, 0, 0⟩)).length ≤ 0
    unfold vdot vcross vsub vadd vdivScalar VerdictVector.length
    norm_num
  exact ⟨Or.inr (Or.inl hd),
    pyramid_shape_zero_when_degenerate (fun _ : QuadCoords => (1:ℝ)) 5 invertedPyramid
      (Or.inr (Or.inl hd))⟩

/-- C5: `v_pyramid_quality` zero-initializes the record and then computes and
stores only the metric of the first matching flag in the fixed order
volume, Jacobian, scaled-Jacobian, shape (the spec-side dispatch
description); in particular, for a bitmask with both the volume and the
shape flags set, only the volume field is populated and the shape (and
every other) field remains zero. -/
theorem pyramid_quality_dispatch (tetJac : TetCoords → ℝ) (quadShape : QuadCoords → ℝ)
    (n : ℤ) (c : PyramidCoords) (flag : ℕ) :
    v_pyramid_quality tetJac quadShape n c flag =
      v_pyramid_quality_spec tetJac quadShape n c flag ∧
    (v_pyramid_quality tetJac quadShape n c
        (V_PYRAMID_VOLUME ||| V_PYRAMID_SHAPE)).volume = v_pyramid_volume n c ∧
    (v_pyramid_quality tetJac quadShape n c
        (V_PYRAMID_VOLUME ||| V_PYRAMID_SHAPE)).shape = 0 ∧
    (v_pyramid_quality tetJac quadShape n c
        (V_PYRAMID_VOLUME ||| V_PYRAMID_SHAPE)).jacobian = 0 ∧
    (v_pyramid_quality tetJac quadShape n c
        (V_PYRAMID_VOLUME ||| V_PYRAMID_SHAPE)).scaled_jacobian = 0 := by
  have hboth : (V_PYRAMID_VOLUME ||| V_PYRAMID_SHAPE) &&& V_PYRAMID_VOLUME ≠ 0 := by
    decide
  refine ⟨?_, ?_, ?_, ?_, ?_⟩
  · simp only [v_pyramid_quality, v_pyramid_quality_spec, firstRequestedMetric,
      pyramid_metric_value, store_pyramid_metric]
    by_cases h1 : flag &&& V_PYRAMID_VOLUME = 0 <;>
      by_cases h2 : flag &&& V_PYRAMID_JACOBIAN = 0 <;>
        by_cases h3 : flag &&& V_PYRAMID_SCALED_JACOBIAN = 0 <;>
          by_cases h4 : flag &&& V_PYRAMID_SHAPE = 0 <;>
            simp [h1, h2, h3, h4]
  · simp [v_pyramid_quality, if_pos hboth]
  · simp [v_pyramid_quality, if_pos hboth, zeroPyramidMetricVals]
  · simp [v_pyramid_quality, if_pos hboth, zeroPyramidMetricVals]
  · simp [v_pyramid_quality, if_pos hboth, zeroPyramidMetricVals]

end Verdict
